import Mathlib

/-!
# The ICU shim of the terminal (`dependencies/sources/terminal-icushim`)

A shallow embedding of the two C translation units

* `terminal-icushim/icu.c`      (namespace `TerminalIcushim`)
* `terminal-icushim/icu/icu.c`  (namespace `TerminalIcushim.Icu`)

Every C function becomes a Lean function from its arguments and the memory
before the call to an `Outcome`: the value it returns, the memory after the
call, and the stores it executed, in order.

## Memory

Memory is one flat address space of cells.  A pointer of any C type is an
address (`Nat`), the null pointer is address `0`, and pointers of different
types may hold the same address: a `UErrorCode*` can point into a parse-error
structure, a pattern buffer or the object behind a handle.  An object is the
run of cells from its base address; a `UErrorCode` occupies one cell, and
the store `*status = U_UNSUPPORTED_ERROR` writes that one cell.  The C test
`if (status)` is the test `status ≠ NULL`.

## What `<icu.h>` declares

The header is not part of the sources.  The enumerator `U_UNSUPPORTED_ERROR`
is therefore an explicit first argument of every function that uses it, so
that everything proved holds for whatever value the header gives it.  The
types `URegularExpression`, `UText` and `UParseError` are never looked into by
this unit, and their sizes are not fixed here: statements about their objects
hold for every length.

Parameters keep their C names; most are unused, as `UNREFERENCED_PARAMETER`
says in the source.
-/

set_option linter.unusedVariables false

namespace TerminalIcushim

/-! ## Data model -/

/-- An address; the C pointer types of the unit all map to it. -/
abbrev Ptr := Nat

/-- The null pointer (`NULL`, also written `0` in `uregex_clone`). -/
abbrev NULL : Ptr := 0

/-- `UErrorCode` is a C enumeration, an integer type. -/
abbrev UErrorCode := Int

/-- `UBool` is a small integer type; `0` is false. -/
abbrev UBool := Int

/-- The memory a call can see: the integer each cell of the one address space
holds. -/
@[ext]
structure Memory where
  /-- the value of the cell at an address -/
  cell : Ptr → Int

/-- The store `*p = v`. -/
def Memory.store (m : Memory) (p : Ptr) (v : Int) : Memory :=
  ⟨Function.update m.cell p v⟩

/-- A store `*addr = value` that a function executed. -/
structure Store where
  /-- the address written -/
  addr : Ptr
  /-- the value written -/
  value : Int
  deriving DecidableEq, Repr

/-- What running a function gives: its return value, the memory it leaves and
the stores it executed, in order. -/
structure Outcome (α : Type) where
  /-- the value returned (`()` for a `void` function) -/
  ret : α
  /-- the memory after the call -/
  mem : Memory
  /-- the stores executed during the call, oldest first -/
  stores : List Store

/-! ## `terminal-icushim/icu.c` -/

/-- `static void SetNotSupported(UErrorCode* status)`:
`if (status) { *status = U_UNSUPPORTED_ERROR; }` -/
def SetNotSupported (U_UNSUPPORTED_ERROR : UErrorCode) (status : Ptr) (m : Memory) :
    Outcome Unit :=
  if status ≠ NULL then
    ⟨(), m.store status U_UNSUPPORTED_ERROR, [⟨status, U_UNSUPPORTED_ERROR⟩]⟩
  else
    ⟨(), m, []⟩

/-- `URegularExpression* uregex_open(pattern, patternLength, flags, pe, status)`:
`SetNotSupported(status); return NULL;` -/
def uregex_open (U_UNSUPPORTED_ERROR : UErrorCode)
    (pattern : Ptr) (patternLength : Int) (flags : Nat) (pe : Ptr) (status : Ptr)
    (m : Memory) : Outcome Ptr :=
  let r := SetNotSupported U_UNSUPPORTED_ERROR status m
  ⟨NULL, r.mem, r.stores⟩

/-- `void uregex_close(regexp)`: empty body. -/
def uregex_close (regexp : Ptr) (m : Memory) : Outcome Unit :=
  ⟨(), m, []⟩

/-- `UText* utext_setup(ut, extraSpace, status)`:
`SetNotSupported(status); return NULL;` -/
def utext_setup (U_UNSUPPORTED_ERROR : UErrorCode)
    (ut : Ptr) (extraSpace : Int) (status : Ptr) (m : Memory) : Outcome Ptr :=
  let r := SetNotSupported U_UNSUPPORTED_ERROR status m
  ⟨NULL, r.mem, r.stores⟩

/-- `UText* utext_close(ut)`: `return NULL;` -/
def utext_close (ut : Ptr) (m : Memory) : Outcome Ptr :=
  ⟨NULL, m, []⟩

/-- `int64_t uregex_start64(regexp, groupNum, status)`:
`SetNotSupported(status); return 0;` -/
def uregex_start64 (U_UNSUPPORTED_ERROR : UErrorCode)
    (regexp : Ptr) (groupNum : Int) (status : Ptr) (m : Memory) : Outcome Int :=
  let r := SetNotSupported U_UNSUPPORTED_ERROR status m
  ⟨0, r.mem, r.stores⟩

/-- `void uregex_setTimeLimit(regexp, limit, status)`: `SetNotSupported(status);` -/
def uregex_setTimeLimit (U_UNSUPPORTED_ERROR : UErrorCode)
    (regexp : Ptr) (limit : Int) (status : Ptr) (m : Memory) : Outcome Unit :=
  SetNotSupported U_UNSUPPORTED_ERROR status m

/-- `void uregex_setStackLimit(regexp, limit, status)`: `SetNotSupported(status);` -/
def uregex_setStackLimit (U_UNSUPPORTED_ERROR : UErrorCode)
    (regexp : Ptr) (limit : Int) (status : Ptr) (m : Memory) : Outcome Unit :=
  SetNotSupported U_UNSUPPORTED_ERROR status m

/-- `UBool uregex_findNext(regexp, status)`: `SetNotSupported(status); return 0;` -/
def uregex_findNext (U_UNSUPPORTED_ERROR : UErrorCode)
    (regexp : Ptr) (status : Ptr) (m : Memory) : Outcome UBool :=
  let r := SetNotSupported U_UNSUPPORTED_ERROR status m
  ⟨0, r.mem, r.stores⟩

/-- `UBool uregex_find(regexp, startIndex, status)`:
`SetNotSupported(status); return 0;` -/
def uregex_find (U_UNSUPPORTED_ERROR : UErrorCode)
    (regexp : Ptr) (startIndex : Int) (status : Ptr) (m : Memory) : Outcome UBool :=
  let r := SetNotSupported U_UNSUPPORTED_ERROR status m
  ⟨0, r.mem, r.stores⟩

/-- `void uregex_setUText(regexp, text, status)`: `SetNotSupported(status);` -/
def uregex_setUText (U_UNSUPPORTED_ERROR : UErrorCode)
    (regexp : Ptr) (text : Ptr) (status : Ptr) (m : Memory) : Outcome Unit :=
  SetNotSupported U_UNSUPPORTED_ERROR status m

/-- `int64_t uregex_end64(regexp, groupNum, status)`:
`SetNotSupported(status); return 0;` -/
def uregex_end64 (U_UNSUPPORTED_ERROR : UErrorCode)
    (regexp : Ptr) (groupNum : Int) (status : Ptr) (m : Memory) : Outcome Int :=
  let r := SetNotSupported U_UNSUPPORTED_ERROR status m
  ⟨0, r.mem, r.stores⟩

/-- `URegularExpression* uregex_clone(regexp, status)`:
`SetNotSupported(status); return 0;` (the null pointer constant). -/
def uregex_clone (U_UNSUPPORTED_ERROR : UErrorCode)
    (regexp : Ptr) (status : Ptr) (m : Memory) : Outcome Ptr :=
  let r := SetNotSupported U_UNSUPPORTED_ERROR status m
  ⟨NULL, r.mem, r.stores⟩

/-! ## `terminal-icushim/icu/icu.c`

The second translation unit.  It defines `SetNotSupported` and eleven exported
functions; there is no `utext_close` in it. -/

namespace Icu

/-- `static void SetNotSupported(UErrorCode* status)`:
`if (status) { *status = U_UNSUPPORTED_ERROR; }` -/
def SetNotSupported (U_UNSUPPORTED_ERROR : UErrorCode) (status : Ptr) (m : Memory) :
    Outcome Unit :=
  if status ≠ NULL then
    ⟨(), m.store status U_UNSUPPORTED_ERROR, [⟨status, U_UNSUPPORTED_ERROR⟩]⟩
  else
    ⟨(), m, []⟩

/-- `URegularExpression* uregex_open(pattern, patternLength, flags, pe, status)`:
`SetNotSupported(status); return NULL;` -/
def uregex_open (U_UNSUPPORTED_ERROR : UErrorCode)
    (pattern : Ptr) (patternLength : Int) (flags : Nat) (pe : Ptr) (status : Ptr)
    (m : Memory) : Outcome Ptr :=
  let r := SetNotSupported U_UNSUPPORTED_ERROR status m
  ⟨NULL, r.mem, r.stores⟩

/-- `void uregex_close(regexp)`: empty body. -/
def uregex_close (regexp : Ptr) (m : Memory) : Outcome Unit :=
  ⟨(), m, []⟩

/-- `UText* utext_setup(ut, extraSpace, status)`:
`SetNotSupported(status); return NULL;` -/
def utext_setup (U_UNSUPPORTED_ERROR : UErrorCode)
    (ut : Ptr) (extraSpace : Int) (status : Ptr) (m : Memory) : Outcome Ptr :=
  let r := SetNotSupported U_UNSUPPORTED_ERROR status m
  ⟨NULL, r.mem, r.stores⟩

/-- `int64_t uregex_start64(regexp, groupNum, status)`:
`SetNotSupported(status); return 0;` -/
def uregex_start64 (U_UNSUPPORTED_ERROR : UErrorCode)
    (regexp : Ptr) (groupNum : Int) (status : Ptr) (m : Memory) : Outcome Int :=
  let r := SetNotSupported U_UNSUPPORTED_ERROR status m
  ⟨0, r.mem, r.stores⟩

/-- `void uregex_setTimeLimit(regexp, limit, status)`: `SetNotSupported(status);` -/
def uregex_setTimeLimit (U_UNSUPPORTED_ERROR : UErrorCode)
    (regexp : Ptr) (limit : Int) (status : Ptr) (m : Memory) : Outcome Unit :=
  SetNotSupported U_UNSUPPORTED_ERROR status m

/-- `void uregex_setStackLimit(regexp, limit, status)`: `SetNotSupported(status);` -/
def uregex_setStackLimit (U_UNSUPPORTED_ERROR : UErrorCode)
    (regexp : Ptr) (limit : Int) (status : Ptr) (m : Memory) : Outcome Unit :=
  SetNotSupported U_UNSUPPORTED_ERROR status m

/-- `UBool uregex_findNext(regexp, status)`: `SetNotSupported(status); return 0;` -/
def uregex_findNext (U_UNSUPPORTED_ERROR : UErrorCode)
    (regexp : Ptr) (status : Ptr) (m : Memory) : Outcome UBool :=
  let r := SetNotSupported U_UNSUPPORTED_ERROR status m
  ⟨0, r.mem, r.stores⟩

/-- `UBool uregex_find(regexp, startIndex, status)`:
`SetNotSupported(status); return 0;` -/
def uregex_find (U_UNSUPPORTED_ERROR : UErrorCode)
    (regexp : Ptr) (startIndex : Int) (status : Ptr) (m : Memory) : Outcome UBool :=
  let r := SetNotSupported U_UNSUPPORTED_ERROR status m
  ⟨0, r.mem, r.stores⟩

/-- `void uregex_setUText(regexp, text, status)`: `SetNotSupported(status);` -/
def uregex_setUText (U_UNSUPPORTED_ERROR : UErrorCode)
    (regexp : Ptr) (text : Ptr) (status : Ptr) (m : Memory) : Outcome Unit :=
  SetNotSupported U_UNSUPPORTED_ERROR status m

/-- `int64_t uregex_end64(regexp, groupNum, status)`:
`SetNotSupported(status); return 0;` -/
def uregex_end64 (U_UNSUPPORTED_ERROR : UErrorCode)
    (regexp : Ptr) (groupNum : Int) (status : Ptr) (m : Memory) : Outcome Int :=
  let r := SetNotSupported U_UNSUPPORTED_ERROR status m
  ⟨0, r.mem, r.stores⟩

/-- `URegularExpression* uregex_clone(regexp, status)`:
`SetNotSupported(status); return 0;` (the null pointer constant). -/
def uregex_clone (U_UNSUPPORTED_ERROR : UErrorCode)
    (regexp : Ptr) (status : Ptr) (m : Memory) : Outcome Ptr :=
  let r := SetNotSupported U_UNSUPPORTED_ERROR status m
  ⟨NULL, r.mem, r.stores⟩

end Icu

/-! ## Calls: an entry point together with its arguments

To speak of "every entry point and every input" at once, a call is a value:
the name of an exported function of the API with the arguments of its C
signature.  `call` runs a call against `terminal-icushim/icu.c`, `Icu.call`
against `terminal-icushim/icu/icu.c`. -/

/-- The exported function names that occur in the two units. -/
inductive EntryPoint
  | uregex_open
  | uregex_close
  | utext_setup
  | utext_close
  | uregex_start64
  | uregex_setTimeLimit
  | uregex_setStackLimit
  | uregex_findNext
  | uregex_find
  | uregex_setUText
  | uregex_end64
  | uregex_clone
  deriving DecidableEq, Repr

/-- An entry point applied to arguments, in the order of the C signature. -/
inductive Call
  | uregex_open (pattern : Ptr) (patternLength : Int) (flags : Nat) (pe : Ptr) (status : Ptr)
  | uregex_close (regexp : Ptr)
  | utext_setup (ut : Ptr) (extraSpace : Int) (status : Ptr)
  | utext_close (ut : Ptr)
  | uregex_start64 (regexp : Ptr) (groupNum : Int) (status : Ptr)
  | uregex_setTimeLimit (regexp : Ptr) (limit : Int) (status : Ptr)
  | uregex_setStackLimit (regexp : Ptr) (limit : Int) (status : Ptr)
  | uregex_findNext (regexp : Ptr) (status : Ptr)
  | uregex_find (regexp : Ptr) (startIndex : Int) (status : Ptr)
  | uregex_setUText (regexp : Ptr) (text : Ptr) (status : Ptr)
  | uregex_end64 (regexp : Ptr) (groupNum : Int) (status : Ptr)
  | uregex_clone (regexp : Ptr) (status : Ptr)
  deriving DecidableEq, Repr

/-- A return value, tagged with the C return type. -/
inductive Ret
  /-- `void` -/
  | void
  /-- `URegularExpression*` -/
  | regexp (p : Ptr)
  /-- `UText*` -/
  | text (p : Ptr)
  /-- `int64_t` -/
  | int64 (v : Int)
  /-- `UBool` -/
  | ubool (v : UBool)
  deriving DecidableEq, Repr

/-- The entry point a call names. -/
def Call.entry : Call → EntryPoint
  | .uregex_open _ _ _ _ _ => .uregex_open
  | .uregex_close _ => .uregex_close
  | .utext_setup _ _ _ => .utext_setup
  | .utext_close _ => .utext_close
  | .uregex_start64 _ _ _ => .uregex_start64
  | .uregex_setTimeLimit _ _ _ => .uregex_setTimeLimit
  | .uregex_setStackLimit _ _ _ => .uregex_setStackLimit
  | .uregex_findNext _ _ => .uregex_findNext
  | .uregex_find _ _ _ => .uregex_find
  | .uregex_setUText _ _ _ => .uregex_setUText
  | .uregex_end64 _ _ _ => .uregex_end64
  | .uregex_clone _ _ => .uregex_clone

/-- The `status` argument of a call; the two close functions have none. -/
def Call.status : Call → Option Ptr
  | .uregex_open _ _ _ _ status => some status
  | .uregex_close _ => none
  | .utext_setup _ _ status => some status
  | .utext_close _ => none
  | .uregex_start64 _ _ status => some status
  | .uregex_setTimeLimit _ _ status => some status
  | .uregex_setStackLimit _ _ status => some status
  | .uregex_findNext _ status => some status
  | .uregex_find _ _ status => some status
  | .uregex_setUText _ _ status => some status
  | .uregex_end64 _ _ status => some status
  | .uregex_clone _ status => some status

/-- The status slot a call supplies: its `status` argument when it has one and
it is not null. -/
def Call.statusSlot (c : Call) : Option Ptr :=
  match c.status with
  | some status => if status ≠ NULL then some status else none
  | none => none

/-- The outcome of a function with its return value tagged by `tag`. -/
def Outcome.tagged {α : Type} (tag : α → Ret) (r : Outcome α) : Outcome Ret :=
  ⟨tag r.ret, r.mem, r.stores⟩

/-- Run a call against `terminal-icushim/icu.c`. -/
def call (U_UNSUPPORTED_ERROR : UErrorCode) : Call → Memory → Outcome Ret
  | .uregex_open pattern patternLength flags pe status, m =>
    (uregex_open U_UNSUPPORTED_ERROR pattern patternLength flags pe status m).tagged Ret.regexp
  | .uregex_close regexp, m =>
    (uregex_close regexp m).tagged (fun _ => Ret.void)
  | .utext_setup ut extraSpace status, m =>
    (utext_setup U_UNSUPPORTED_ERROR ut extraSpace status m).tagged Ret.text
  | .utext_close ut, m =>
    (utext_close ut m).tagged Ret.text
  | .uregex_start64 regexp groupNum status, m =>
    (uregex_start64 U_UNSUPPORTED_ERROR regexp groupNum status m).tagged Ret.int64
  | .uregex_setTimeLimit regexp limit status, m =>
    (uregex_setTimeLimit U_UNSUPPORTED_ERROR regexp limit status m).tagged (fun _ => Ret.void)
  | .uregex_setStackLimit regexp limit status, m =>
    (uregex_setStackLimit U_UNSUPPORTED_ERROR regexp limit status m).tagged (fun _ => Ret.void)
  | .uregex_findNext regexp status, m =>
    (uregex_findNext U_UNSUPPORTED_ERROR regexp status m).tagged Ret.ubool
  | .uregex_find regexp startIndex status, m =>
    (uregex_find U_UNSUPPORTED_ERROR regexp startIndex status m).tagged Ret.ubool
  | .uregex_setUText regexp text status, m =>
    (uregex_setUText U_UNSUPPORTED_ERROR regexp text status m).tagged (fun _ => Ret.void)
  | .uregex_end64 regexp groupNum status, m =>
    (uregex_end64 U_UNSUPPORTED_ERROR regexp groupNum status m).tagged Ret.int64
  | .uregex_clone regexp status, m =>
    (uregex_clone U_UNSUPPORTED_ERROR regexp status m).tagged Ret.regexp

/-- The value in the status slot after a call, when the call supplies one. -/
def finalStatus (U_UNSUPPORTED_ERROR : UErrorCode) (c : Call) (m : Memory) :
    Option UErrorCode :=
  c.statusSlot.map fun status => (call U_UNSUPPORTED_ERROR c m).mem.cell status

/-- The functions `terminal-icushim/icu.c` defines with `U_CAPI`, in source
order. -/
def entryPoints : List EntryPoint :=
  [.uregex_open, .uregex_close, .utext_setup, .utext_close, .uregex_start64,
    .uregex_setTimeLimit, .uregex_setStackLimit, .uregex_findNext, .uregex_find,
    .uregex_setUText, .uregex_end64, .uregex_clone]

/-- The functions `terminal-icushim/icu/icu.c` defines with `U_CAPI`, in source
order. -/
def Icu.entryPoints : List EntryPoint :=
  [.uregex_open, .uregex_close, .utext_setup, .uregex_start64,
    .uregex_setTimeLimit, .uregex_setStackLimit, .uregex_findNext, .uregex_find,
    .uregex_setUText, .uregex_end64, .uregex_clone]

/-- Run a call against `terminal-icushim/icu/icu.c`.  The unit has no
definition of `utext_close`, so such a call has nothing to run: `none`. -/
def Icu.call (U_UNSUPPORTED_ERROR : UErrorCode) : Call → Memory → Option (Outcome Ret)
  | .uregex_open pattern patternLength flags pe status, m =>
    some ((Icu.uregex_open U_UNSUPPORTED_ERROR pattern patternLength flags pe status m).tagged Ret.regexp)
  | .uregex_close regexp, m =>
    some ((Icu.uregex_close regexp m).tagged (fun _ => Ret.void))
  | .utext_setup ut extraSpace status, m =>
    some ((Icu.utext_setup U_UNSUPPORTED_ERROR ut extraSpace status m).tagged Ret.text)
  | .utext_close _, _ => none
  | .uregex_start64 regexp groupNum status, m =>
    some ((Icu.uregex_start64 U_UNSUPPORTED_ERROR regexp groupNum status m).tagged Ret.int64)
  | .uregex_setTimeLimit regexp limit status, m =>
    some ((Icu.uregex_setTimeLimit U_UNSUPPORTED_ERROR regexp limit status m).tagged (fun _ => Ret.void))
  | .uregex_setStackLimit regexp limit status, m =>
    some ((Icu.uregex_setStackLimit U_UNSUPPORTED_ERROR regexp limit status m).tagged (fun _ => Ret.void))
  | .uregex_findNext regexp status, m =>
    some ((Icu.uregex_findNext U_UNSUPPORTED_ERROR regexp status m).tagged Ret.ubool)
  | .uregex_find regexp startIndex status, m =>
    some ((Icu.uregex_find U_UNSUPPORTED_ERROR regexp startIndex status m).tagged Ret.ubool)
  | .uregex_setUText regexp text status, m =>
    some ((Icu.uregex_setUText U_UNSUPPORTED_ERROR regexp text status m).tagged (fun _ => Ret.void))
  | .uregex_end64 regexp groupNum status, m =>
    some ((Icu.uregex_end64 U_UNSUPPORTED_ERROR regexp groupNum status m).tagged Ret.int64)
  | .uregex_clone regexp status, m =>
    some ((Icu.uregex_clone U_UNSUPPORTED_ERROR regexp status m).tagged Ret.regexp)

/-! ## A concrete memory for the scenarios -/

/-- A memory whose cells hold `0` (so every status cell holds "no error"),
except for a five-unit pattern buffer "hello" at address `100`. -/
def sampleMemory : Memory :=
  ⟨fun a => if 100 ≤ a then ([104, 101, 108, 108, 111] : List Int).getD (a - 100) 0 else 0⟩

/-- The memory `m` with the status cell at `status` holding `v`: what the
caller has set up when it passes `status` with the initial value `v`. -/
def Memory.withStatus (m : Memory) (status : Ptr) (v : UErrorCode) : Memory :=
  ⟨Function.update m.cell status v⟩

/-! ## Facts about stores and `SetNotSupported` shared by the proofs below -/

theorem Memory.store_cell_self (m : Memory) (p : Ptr) (v : Int) :
    (m.store p v).cell p = v := by
  simp [Memory.store]

theorem Memory.store_cell_other (m : Memory) (p a : Ptr) (v : Int) (h : a ≠ p) :
    (m.store p v).cell a = m.cell a := by
  simp [Memory.store, Function.update_noteq h]

theorem Memory.store_store (m : Memory) (p : Ptr) (v : Int) :
    (m.store p v).store p v = m.store p v := by
  simp [Memory.store]

theorem SetNotSupported_null (E : UErrorCode) (m : Memory) :
    SetNotSupported E NULL m = ⟨(), m, []⟩ := by
  simp [SetNotSupported]

theorem SetNotSupported_of_ne (E : UErrorCode) (status : Ptr) (m : Memory)
    (h : status ≠ NULL) :
    SetNotSupported E status m = ⟨(), m.store status E, [⟨status, E⟩]⟩ := by
  simp [SetNotSupported, h]

theorem SetNotSupported_cell_self (E : UErrorCode) (status : Ptr) (m : Memory)
    (h : status ≠ NULL) : (SetNotSupported E status m).mem.cell status = E := by
  rw [SetNotSupported_of_ne E status m h]
  exact Memory.store_cell_self m status E

theorem SetNotSupported_cell_other (E : UErrorCode) (status a : Ptr) (m : Memory)
    (h : a ≠ status) : (SetNotSupported E status m).mem.cell a = m.cell a := by
  unfold SetNotSupported
  split
  · exact Memory.store_cell_other m status a E h
  · rfl

theorem SetNotSupported_twice (E : UErrorCode) (status : Ptr) (m : Memory) :
    SetNotSupported E status (SetNotSupported E status m).mem = SetNotSupported E status m := by
  by_cases h : status ≠ NULL
  · rw [SetNotSupported_of_ne E status m h, SetNotSupported_of_ne E status _ h,
      Memory.store_store]
  · have h0 : status = NULL := not_not.mp h
    subst h0
    rw [SetNotSupported_null, SetNotSupported_null]

theorem SetNotSupported_stores_mem (E : UErrorCode) (status : Ptr) (m : Memory) (w : Store)
    (h : w ∈ (SetNotSupported E status m).stores) : w = ⟨status, E⟩ := by
  unfold SetNotSupported at h
  split at h
  · exact List.mem_singleton.mp h
  · exact absurd h (List.not_mem_nil w)

/-! ## Results: return sentinels and the status written -/

/-- C1: each construction operation (`uregex_open`, `uregex_clone`,
`utext_setup`) returns the null handle for every input, and whenever the
status pointer is not null the status cell holds `U_UNSUPPORTED_ERROR` after
the call. -/
theorem construction_returns_null_and_reports_unsupported
    (E : UErrorCode) (pattern : Ptr) (patternLength : Int) (flags : Nat) (pe : Ptr)
    (regexp ut : Ptr) (extraSpace : Int) (status : Ptr) (m : Memory) :
    ((uregex_open E pattern patternLength flags pe status m).ret = NULL ∧
      (uregex_clone E regexp status m).ret = NULL ∧
      (utext_setup E ut extraSpace status m).ret = NULL) ∧
    (status ≠ NULL →
      (uregex_open E pattern patternLength flags pe status m).mem.cell status = E ∧
      (uregex_clone E regexp status m).mem.cell status = E ∧
      (utext_setup E ut extraSpace status m).mem.cell status = E) := by
  refine ⟨⟨rfl, rfl, rfl⟩, fun h => ?_⟩
  simp only [uregex_open, uregex_clone, utext_setup]
  exact ⟨SetNotSupported_cell_self E status m h,
    SetNotSupported_cell_self E status m h,
    SetNotSupported_cell_self E status m h⟩

/-- Scenario 1 of the specification, by C1: pattern buffer at `100`, length
`5`, flags `0`, null parse-error pointer, status cell `7` initially `0`. -/
theorem construction_returns_null_and_reports_unsupported_witness :
    (7 : Ptr) ≠ NULL ∧ sampleMemory.cell 7 = 0 ∧
    (uregex_open 16 100 5 0 NULL 7 sampleMemory).ret = NULL ∧
    (uregex_open 16 100 5 0 NULL 7 sampleMemory).mem.cell 7 = 16 :=
  ⟨by decide, rfl,
    (construction_returns_null_and_reports_unsupported 16 100 5 0 NULL 0 0 0 7
      sampleMemory).1.1,
    ((construction_returns_null_and_reports_unsupported 16 100 5 0 NULL 0 0 0 7
      sampleMemory).2 (by decide)).1⟩

/-- C2: each search operation (`uregex_findNext`, `uregex_find`) returns `0`
(false) for every pattern handle, the null handle included, and every start
index, and whenever the status pointer is not null the status cell holds
`U_UNSUPPORTED_ERROR` after the call. -/
theorem search_returns_false_and_reports_unsupported
    (E : UErrorCode) (regexp : Ptr) (startIndex : Int) (status : Ptr) (m : Memory) :
    ((uregex_findNext E regexp status m).ret = 0 ∧
      (uregex_find E regexp startIndex status m).ret = 0) ∧
    (status ≠ NULL →
      (uregex_findNext E regexp status m).mem.cell status = E ∧
      (uregex_find E regexp startIndex status m).mem.cell status = E) := by
  refine ⟨⟨rfl, rfl⟩, fun h => ?_⟩
  simp only [uregex_findNext, uregex_find]
  exact ⟨SetNotSupported_cell_self E status m h,
    SetNotSupported_cell_self E status m h⟩

/-- Scenario 2 of the specification, by C2: `uregex_findNext` with the null
pattern handle and a status cell. -/
theorem search_returns_false_and_reports_unsupported_witness :
    (7 : Ptr) ≠ NULL ∧
    (uregex_findNext 16 NULL 7 sampleMemory).ret = 0 ∧
    (uregex_findNext 16 NULL 7 sampleMemory).mem.cell 7 = 16 :=
  ⟨by decide,
    (search_returns_false_and_reports_unsupported 16 NULL 0 7 sampleMemory).1.1,
    ((search_returns_false_and_reports_unsupported 16 NULL 0 7 sampleMemory).2
      (by decide)).1⟩

/-- C3: each group-extent operation (`uregex_start64`, `uregex_end64`)
returns `0` for every pattern handle and every group index, negative ones
included, and whenever the status pointer is not null the status cell holds
`U_UNSUPPORTED_ERROR` after the call. -/
theorem group_extent_returns_zero_and_reports_unsupported
    (E : UErrorCode) (regexp : Ptr) (groupNum : Int) (status : Ptr) (m : Memory) :
    ((uregex_start64 E regexp groupNum status m).ret = 0 ∧
      (uregex_end64 E regexp groupNum status m).ret = 0) ∧
    (status ≠ NULL →
      (uregex_start64 E regexp groupNum status m).mem.cell status = E ∧
      (uregex_end64 E regexp groupNum status m).mem.cell status = E) := by
  refine ⟨⟨rfl, rfl⟩, fun h => ?_⟩
  simp only [uregex_start64, uregex_end64]
  exact ⟨SetNotSupported_cell_self E status m h,
    SetNotSupported_cell_self E status m h⟩

/-- C3 at group index `-1` with a status cell supplied. -/
theorem group_extent_returns_zero_and_reports_unsupported_witness :
    (7 : Ptr) ≠ NULL ∧
    (uregex_start64 16 3 (-1) 7 sampleMemory).ret = 0 ∧
    (uregex_end64 16 3 (-1) 7 sampleMemory).ret = 0 ∧
    (uregex_start64 16 3 (-1) 7 sampleMemory).mem.cell 7 = 16 ∧
    (uregex_end64 16 3 (-1) 7 sampleMemory).mem.cell 7 = 16 :=
  ⟨by decide,
    (group_extent_returns_zero_and_reports_unsupported 16 3 (-1) 7 sampleMemory).1.1,
    (group_extent_returns_zero_and_reports_unsupported 16 3 (-1) 7 sampleMemory).1.2,
    (group_extent_returns_zero_and_reports_unsupported 16 3 (-1) 7 sampleMemory).2
      (by decide)⟩

/-! ## Null status, destruction, binding and limits -/

/-- C4: with a null status pointer each of the ten status-taking operations
returns its usual sentinel (null handle, `0`, or nothing), the memory after
the call is the memory before it, whatever it holds, also at address `0`, and
no store is executed. -/
theorem null_status_completes_without_write
    (E : UErrorCode) (pattern : Ptr) (patternLength : Int) (flags : Nat) (pe : Ptr)
    (regexp ut text : Ptr) (extraSpace groupNum startIndex limit : Int) (m : Memory) :
    uregex_open E pattern patternLength flags pe NULL m = ⟨NULL, m, []⟩ ∧
    uregex_clone E regexp NULL m = ⟨NULL, m, []⟩ ∧
    utext_setup E ut extraSpace NULL m = ⟨NULL, m, []⟩ ∧
    uregex_findNext E regexp NULL m = ⟨0, m, []⟩ ∧
    uregex_find E regexp startIndex NULL m = ⟨0, m, []⟩ ∧
    uregex_setUText E regexp text NULL m = ⟨(), m, []⟩ ∧
    uregex_start64 E regexp groupNum NULL m = ⟨0, m, []⟩ ∧
    uregex_end64 E regexp groupNum NULL m = ⟨0, m, []⟩ ∧
    uregex_setTimeLimit E regexp limit NULL m = ⟨(), m, []⟩ ∧
    uregex_setStackLimit E regexp limit NULL m = ⟨(), m, []⟩ := by
  simp only [uregex_open, uregex_clone, utext_setup, uregex_findNext, uregex_find,
    uregex_setUText, uregex_start64, uregex_end64, uregex_setTimeLimit,
    uregex_setStackLimit, SetNotSupported_null, and_self]

/-- C5: for every handle value, `uregex_close` returns nothing and
`utext_close` returns the null text handle, and each leaves the memory as it
was and executes no store; the result does not depend on the handle or on
what the memory holds behind it. -/
theorem close_operations_have_no_effect (regexp ut : Ptr) (m : Memory) :
    uregex_close regexp m = ⟨(), m, []⟩ ∧ utext_close ut m = ⟨NULL, m, []⟩ :=
  ⟨rfl, rfl⟩

/-- C6: the binding and limit operations (`uregex_setUText`,
`uregex_setTimeLimit`, `uregex_setStackLimit`) return nothing for every
pattern handle, text handle and limit; whenever the status pointer is not null
the status cell holds `U_UNSUPPORTED_ERROR` after the call; and nothing else
is stored (no text bound, no limit recorded): every store executed is that
code to the status cell, and every other cell is as before. -/
theorem binding_and_limits_report_unsupported
    (E : UErrorCode) (regexp text : Ptr) (limit : Int) (status : Ptr) (m : Memory) :
    ((uregex_setUText E regexp text status m).ret = () ∧
      (uregex_setTimeLimit E regexp limit status m).ret = () ∧
      (uregex_setStackLimit E regexp limit status m).ret = ()) ∧
    ((∀ w ∈ (uregex_setUText E regexp text status m).stores, w = ⟨status, E⟩) ∧
      (∀ w ∈ (uregex_setTimeLimit E regexp limit status m).stores, w = ⟨status, E⟩) ∧
      (∀ w ∈ (uregex_setStackLimit E regexp limit status m).stores, w = ⟨status, E⟩)) ∧
    (∀ a : Ptr, a ≠ status →
      (uregex_setUText E regexp text status m).mem.cell a = m.cell a ∧
      (uregex_setTimeLimit E regexp limit status m).mem.cell a = m.cell a ∧
      (uregex_setStackLimit E regexp limit status m).mem.cell a = m.cell a) ∧
    (status ≠ NULL →
      (uregex_setUText E regexp text status m).mem.cell status = E ∧
      (uregex_setTimeLimit E regexp limit status m).mem.cell status = E ∧
      (uregex_setStackLimit E regexp limit status m).mem.cell status = E) := by
  simp only [uregex_setUText, uregex_setTimeLimit, uregex_setStackLimit, and_self]
  exact ⟨trivial, SetNotSupported_stores_mem E status m,
    fun a ha => SetNotSupported_cell_other E status a m ha,
    fun h => SetNotSupported_cell_self E status m h⟩

/-- C6 with a negative limit and a status cell supplied. -/
theorem binding_and_limits_report_unsupported_witness :
    (7 : Ptr) ≠ NULL ∧ (3 : Ptr) ≠ 7 ∧
    ((uregex_setUText 16 3 4 7 sampleMemory).mem.cell 3 = sampleMemory.cell 3 ∧
      (uregex_setTimeLimit 16 3 (-5) 7 sampleMemory).mem.cell 3 = sampleMemory.cell 3 ∧
      (uregex_setStackLimit 16 3 (-5) 7 sampleMemory).mem.cell 3 = sampleMemory.cell 3) ∧
    ((uregex_setUText 16 3 4 7 sampleMemory).mem.cell 7 = 16 ∧
      (uregex_setTimeLimit 16 3 (-5) 7 sampleMemory).mem.cell 7 = 16 ∧
      (uregex_setStackLimit 16 3 (-5) 7 sampleMemory).mem.cell 7 = 16) :=
  ⟨by decide, by decide,
    (binding_and_limits_report_unsupported 16 3 4 (-5) 7 sampleMemory).2.2.1 3 (by decide),
    (binding_and_limits_report_unsupported 16 3 4 (-5) 7 sampleMemory).2.2.2 (by decide)⟩

/-! ## Properties of every entry point -/

theorem call_mem (E : UErrorCode) (c : Call) (m : Memory) :
    (call E c m).mem =
      match c.status with
      | some status => (SetNotSupported E status m).mem
      | none => m := by
  cases c <;> rfl

theorem call_stores (E : UErrorCode) (c : Call) (m : Memory) :
    (call E c m).stores =
      match c.status with
      | some status => (SetNotSupported E status m).stores
      | none => [] := by
  cases c <;> rfl

theorem call_return_of_entry (E₁ E₂ : UErrorCode) (c₁ c₂ : Call) (m₁ m₂ : Memory)
    (h : c₁.entry = c₂.entry) : (call E₁ c₁ m₁).ret = (call E₂ c₂ m₂).ret := by
  cases c₁ <;> cases c₂ <;> first | rfl | exact absurd h (by simp [Call.entry])

theorem statusSlot_eq_some (c : Call) (s : Ptr) (h : c.statusSlot = some s) :
    c.status = some s ∧ s ≠ NULL := by
  unfold Call.statusSlot at h
  split at h
  · split at h
    · rename_i status hs hne
      refine ⟨?_, ?_⟩
      · rw [hs]; exact h
      · have : status = s := Option.some.inj h
        exact this ▸ hne
    · exact absurd h (by simp)
  · exact absurd h (by simp)

theorem call_cell_status (E : UErrorCode) (c : Call) (m : Memory) (status : Ptr)
    (h : c.status = some status) (hne : status ≠ NULL) :
    (call E c m).mem.cell status = E := by
  rw [call_mem, h]
  exact SetNotSupported_cell_self E status m hne

theorem finalStatus_eq (E : UErrorCode) (c : Call) (m : Memory) :
    finalStatus E c m = c.statusSlot.map fun _ => E := by
  unfold finalStatus
  cases hs : c.statusSlot with
  | none => rfl
  | some s =>
    obtain ⟨h1, h2⟩ := statusSlot_eq_some c s hs
    simp only [Option.map_some']
    rw [call_cell_status E c m s h1 h2]

/-- C7: every entry point is idempotent: for every call and every memory,
running the same call a second time, on the memory the first run left, returns
the same value, leaves the memory the first run left and executes the same
stores. -/
theorem every_call_is_idempotent (E : UErrorCode) (c : Call) (m : Memory) :
    (call E c (call E c m).mem).ret = (call E c m).ret ∧
    (call E c (call E c m).mem).mem = (call E c m).mem ∧
    (call E c (call E c m).mem).stores = (call E c m).stores := by
  refine ⟨call_return_of_entry E E c c _ _ rfl, ?_, ?_⟩
  · rw [call_mem E c (call E c m).mem, call_mem E c m]
    cases c.status with
    | none => rfl
    | some status => exact congrArg Outcome.mem (SetNotSupported_twice E status m)
  · rw [call_stores E c (call E c m).mem, call_stores E c m, call_mem E c m]
    cases c.status with
    | none => rfl
    | some status => exact congrArg Outcome.stores (SetNotSupported_twice E status m)

/-- C8: two calls of the same entry point that agree only on whether a status
slot is supplied return equal values and leave equal final status values,
whatever their other arguments, their status addresses and their memories. -/
theorem other_inputs_are_ignored (E : UErrorCode) (c₁ c₂ : Call) (m₁ m₂ : Memory)
    (hentry : c₁.entry = c₂.entry)
    (hslot : c₁.statusSlot.isSome = c₂.statusSlot.isSome) :
    (call E c₁ m₁).ret = (call E c₂ m₂).ret ∧
    finalStatus E c₁ m₁ = finalStatus E c₂ m₂ := by
  refine ⟨call_return_of_entry E E c₁ c₂ m₁ m₂ hentry, ?_⟩
  rw [finalStatus_eq, finalStatus_eq]
  cases h₁ : c₁.statusSlot <;> cases h₂ : c₂.statusSlot <;> simp [h₁, h₂] at hslot ⊢

/-- C8 on two `uregex_open` calls that differ in every argument and in the
memory's initial status value. -/
theorem other_inputs_are_ignored_witness :
    (call 16 (.uregex_open 100 5 0 NULL 7) sampleMemory).ret =
      (call 16 (.uregex_open NULL (-3) 4294967295 9 8) ⟨fun _ => 1⟩).ret ∧
    finalStatus 16 (.uregex_open 100 5 0 NULL 7) sampleMemory =
      finalStatus 16 (.uregex_open NULL (-3) 4294967295 9 8) ⟨fun _ => 1⟩ :=
  other_inputs_are_ignored 16 (.uregex_open 100 5 0 NULL 7)
    (.uregex_open NULL (-3) 4294967295 9 8) sampleMemory ⟨fun _ => 1⟩ rfl rfl

theorem Icu.mem_entryPoints (e : EntryPoint) :
    e ∈ Icu.entryPoints ↔ e ∈ TerminalIcushim.entryPoints ∧ e ≠ EntryPoint.utext_close := by
  cases e <;> simp [Icu.entryPoints, TerminalIcushim.entryPoints]

/-- C10, as stated, fails: `utext_close` is an entry point of
`terminal-icushim/icu.c` and not of `terminal-icushim/icu/icu.c`, so the two
units do not define the same set of entry points, and a `utext_close` call
that the first unit answers with the null text handle has no definition to
run in the second. -/
theorem copies_differ_on_utext_close :
    (EntryPoint.utext_close ∈ entryPoints ∧ EntryPoint.utext_close ∉ Icu.entryPoints) ∧
    (call 16 (.utext_close 3) sampleMemory).ret = Ret.text NULL ∧
    Icu.call 16 (.utext_close 3) sampleMemory = none ∧
    ¬ ((∀ e : EntryPoint, e ∈ entryPoints ↔ e ∈ Icu.entryPoints) ∧
        ∀ (E : UErrorCode) (c : Call) (m : Memory), Icu.call E c m = some (call E c m)) := by
  refine ⟨⟨by decide, by decide⟩, rfl, rfl, ?_⟩
  rintro ⟨hsame, -⟩
  exact absurd ((hsame EntryPoint.utext_close).1 (by decide)) (by decide)

/-- C10, amended: the entry points of `terminal-icushim/icu/icu.c` are those of
`terminal-icushim/icu.c` other than `utext_close`, and for every call of an
entry point the second unit defines, and every memory, the two units return
the same value, leave the same memory (hence the same final status) and
execute the same stores. -/
theorem copies_agree_on_shared_entry_points (E : UErrorCode) (c : Call) (m : Memory) :
    (∀ e : EntryPoint,
      e ∈ Icu.entryPoints ↔ e ∈ entryPoints ∧ e ≠ EntryPoint.utext_close) ∧
    (c.entry ∈ Icu.entryPoints → Icu.call E c m = some (call E c m)) := by
  refine ⟨Icu.mem_entryPoints, fun h => ?_⟩
  cases c <;> first | rfl | exact absurd h (by simp [Call.entry, Icu.entryPoints])

/-- The amended C10 on a `uregex_open` call with a status slot. -/
theorem copies_agree_on_shared_entry_points_witness :
    (Call.uregex_open 100 5 0 NULL 7).entry ∈ Icu.entryPoints ∧
    Icu.call 16 (.uregex_open 100 5 0 NULL 7) sampleMemory =
      some (call 16 (.uregex_open 100 5 0 NULL 7) sampleMemory) :=
  ⟨by decide,
    (copies_agree_on_shared_entry_points 16 (.uregex_open 100 5 0 NULL 7) sampleMemory).2
      (by decide)⟩

/-! ## The status the caller passed in -/

theorem Icu.SetNotSupported_writes_status (E : UErrorCode) (status : Ptr) (m : Memory)
    (h : status ≠ NULL) : (Icu.SetNotSupported E status m).mem.cell status = E := by
  simp [Icu.SetNotSupported, h, Memory.store]

theorem Icu.call_of_status (E : UErrorCode) (c : Call) (m : Memory) (status : Ptr)
    (h : c.status = some status) : Icu.call E c m = some (TerminalIcushim.call E c m) := by
  cases c <;> first | rfl | exact absurd h (by simp [Call.status])

/-- C11: `SetNotSupported`, in both units, and every status-taking entry point
overwrite a supplied status slot whatever it held: for every initial value
`v` of the cell (no error, a warning, `U_UNSUPPORTED_ERROR` itself, any other
code) the value after the call is `U_UNSUPPORTED_ERROR`, and it is the same
value for any other initial value `w`. -/
theorem status_overwritten_whatever_it_held (E v w : UErrorCode) (status : Ptr) (c : Call)
    (m : Memory) (hstatus : status ≠ NULL) (hc : c.status = some status) :
    (m.withStatus status v).cell status = v ∧
    ((SetNotSupported E status (m.withStatus status v)).mem.cell status = E ∧
      (Icu.SetNotSupported E status (m.withStatus status v)).mem.cell status = E) ∧
    ((call E c (m.withStatus status v)).mem.cell status = E ∧
      (Icu.call E c (m.withStatus status v)).map (fun r => r.mem.cell status) = some E) ∧
    (call E c (m.withStatus status w)).mem.cell status =
      (call E c (m.withStatus status v)).mem.cell status := by
  refine ⟨by simp [Memory.withStatus], ⟨?_, ?_⟩, ⟨?_, ?_⟩, ?_⟩
  · exact SetNotSupported_cell_self E status _ hstatus
  · exact Icu.SetNotSupported_writes_status E status _ hstatus
  · exact call_cell_status E c _ status hc hstatus
  · rw [Icu.call_of_status E c _ status hc, Option.map_some',
      call_cell_status E c _ status hc hstatus]
  · rw [call_cell_status E c _ status hc hstatus,
      call_cell_status E c _ status hc hstatus]

/-- C11 on `uregex_find` with the status cell `7` initially holding a failure
code (`1`), a warning (`-128`) and the written code itself (`16`). -/
theorem status_overwritten_whatever_it_held_witness :
    (7 : Ptr) ≠ NULL ∧ (Call.uregex_find 3 0 7).status = some 7 ∧
    ((sampleMemory.withStatus 7 1).cell 7 = 1 ∧
      (call 16 (.uregex_find 3 0 7) (sampleMemory.withStatus 7 1)).mem.cell 7 = 16) ∧
    ((sampleMemory.withStatus 7 (-128)).cell 7 = -128 ∧
      (call 16 (.uregex_find 3 0 7) (sampleMemory.withStatus 7 (-128))).mem.cell 7
        = 16) ∧
    ((sampleMemory.withStatus 7 16).cell 7 = 16 ∧
      (SetNotSupported 16 7 (sampleMemory.withStatus 7 16)).mem.cell 7 = 16 ∧
      (Icu.SetNotSupported 16 7 (sampleMemory.withStatus 7 16)).mem.cell 7 = 16) :=
  ⟨by decide, rfl,
    ⟨(status_overwritten_whatever_it_held 16 1 0 7 (.uregex_find 3 0 7) sampleMemory
        (by decide) rfl).1,
      (status_overwritten_whatever_it_held 16 1 0 7 (.uregex_find 3 0 7) sampleMemory
        (by decide) rfl).2.2.1.1⟩,
    ⟨(status_overwritten_whatever_it_held 16 (-128) 0 7 (.uregex_find 3 0 7) sampleMemory
        (by decide) rfl).1,
      (status_overwritten_whatever_it_held 16 (-128) 0 7 (.uregex_find 3 0 7) sampleMemory
        (by decide) rfl).2.2.1.1⟩,
    ⟨(status_overwritten_whatever_it_held 16 16 0 7 (.uregex_find 3 0 7) sampleMemory
        (by decide) rfl).1,
      (status_overwritten_whatever_it_held 16 16 0 7 (.uregex_find 3 0 7) sampleMemory
        (by decide) rfl).2.1⟩⟩

end TerminalIcushim
